import Mathlib

/-!
Shallow embedding of the `virtual_hardware` subsystem
(`src/python/helpers/virtual_hardware/`): device lifecycle state machine,
run loop and message correlation (`device.py`), the DTE bare-metal device
(`dte_device.py`), the agent spawner and elastic pool
(`agent_spawner.py`), and the red-team scenario catalog (`red_team.py`).
Pure data is embedded as Lean structures; the cooperative (asyncio)
control flow is embedded as explicit state-passing step functions; wall
clock time is modelled by the simulated sleeps, measured in rational
milliseconds/seconds.
-/

namespace VirtualHardware

/-- `DeviceState` enum of `device.py` (lines 16-24). -/
inductive DeviceState where
  | UNINITIALIZED
  | INITIALIZING
  | READY
  | RUNNING
  | SUSPENDED
  | ERROR
  | TERMINATED
  deriving DecidableEq, Repr, Fintype

open DeviceState

/-- A lifecycle method call on a `VirtualHardwareDevice`.  `initialize`
carries the outcome of the overridable `_initialize_impl` hook (success
or raised exception), since `initialize()` itself never throws. -/
inductive LifecycleOp where
  | initializeOk
  | initializeFail
  | start
  | suspend
  | resume
  | terminate
  deriving DecidableEq, Repr, Fintype

/-- State effect of one lifecycle method, read off `device.py`:
`initialize` (97-108) sets INITIALIZING unconditionally and ends READY
on success, ERROR on exception; `start` (114-122) only transitions
READY→RUNNING; `suspend` (154-158) only RUNNING→SUSPENDED; `resume`
(160-164) only SUSPENDED→RUNNING; `terminate` (166-169) sets TERMINATED
unconditionally. -/
def lifecycleStep (s : DeviceState) : LifecycleOp → DeviceState
  | .initializeOk => READY
  | .initializeFail => ERROR
  | .start => if s = READY then RUNNING else s
  | .suspend => if s = RUNNING then SUSPENDED else s
  | .resume => if s = SUSPENDED then RUNNING else s
  | .terminate => TERMINATED

/-- Run a sequence of lifecycle calls from a state. -/
def runOps (s : DeviceState) (ops : List LifecycleOp) : DeviceState :=
  ops.foldl lifecycleStep s

/-- Position of a state along the monotone chain
UNINITIALIZED → INITIALIZING → READY → RUNNING/SUSPENDED → TERMINATED
(RUNNING and SUSPENDED share a rank; ERROR sits beside READY as the
failure outcome of initialization, below TERMINATED). -/
def stateRank : DeviceState → Nat
  | UNINITIALIZED => 0
  | INITIALIZING => 1
  | READY => 2
  | ERROR => 2
  | RUNNING => 3
  | SUSPENDED => 3
  | TERMINATED => 4

/-- An op is one of the four lifecycle calls other than `initialize`. -/
def nonInit (op : LifecycleOp) : Prop :=
  op ≠ .initializeOk ∧ op ≠ .initializeFail

instance (op : LifecycleOp) : Decidable (nonInit op) := by
  unfold nonInit; infer_instance

/-- A single transition respects the monotone chain: it stays put, moves
strictly up the chain, or toggles between RUNNING and SUSPENDED. -/
def monotoneOrToggle (s t : DeviceState) : Prop :=
  t = s ∨ stateRank s < stateRank t ∨
    (s = RUNNING ∧ t = SUSPENDED) ∨ (s = SUSPENDED ∧ t = RUNNING)

instance (s t : DeviceState) : Decidable (monotoneOrToggle s t) := by
  unfold monotoneOrToggle; infer_instance

/-- A queued message: id, type tag and expect-response flag
(`device.py` uses a dict `{id, type, payload, timestamp,
expect_response}`; the payload is abstracted into the handler
function and the timestamp plays no role in control flow). -/
structure Message where
  id : Nat
  type : String
  expectResponse : Bool
  deriving DecidableEq, Repr

/-- Outcome of a type-specific handler (`_handle_inference` /
`_handle_command` / `_handle_query`, possibly overridden): either a
response value or a raised exception. -/
inductive HandlerResult where
  | ok (resp : String)
  | raises
  deriving DecidableEq, Repr

/-- Run-loop-relevant state of a `VirtualHardwareDevice`:
`state`, whether the background `_run_loop` task is still alive,
the inbound `message_queue`, the keys of `response_handlers`
(each key is one pending single-fulfillment future), the fulfilled
futures (message id paired with the response set on the future),
`metrics.error_count`, and a count of messages fully processed. -/
structure Dev where
  state : DeviceState
  loopRunning : Bool
  queue : List Message
  handlers : List Nat
  delivered : List (Nat × String)
  errorCount : Nat
  processedCount : Nat
  deriving DecidableEq, Repr

/-- Tail of `_process_message` (`device.py` 210-214): if a handler is
waiting under this message id, fulfill its future with the response and
delete the handler; otherwise the response is dropped. -/
def fulfill (d : Dev) (i : Nat) (resp : String) : Dev :=
  if i ∈ d.handlers then
    { d with handlers := d.handlers.erase i,
             delivered := (i, resp) :: d.delivered }
  else d

/-- One iteration of `_run_loop` (`device.py` 124-148), parametrised by
the type-dispatch handler `h` (`_process_message` 193-209).  The loop
continues only while `state == RUNNING`; a raised handler exception is
caught by the loop's `except`, which calls `_handle_error`
(`error_count += 1`) and continues — no response is sent on that path.
On an empty queue the 1-second `wait_for` times out and the iteration
only refreshes metrics. -/
def runLoopIter (h : Message → HandlerResult) (d : Dev) : Dev :=
  if d.loopRunning = false then d
  else if d.state ≠ RUNNING then { d with loopRunning := false }
  else
    match d.queue with
    | [] => d
    | m :: rest =>
      let d' := { d with queue := rest }
      match h m with
      | .raises => { d' with errorCount := d'.errorCount + 1 }
      | .ok resp =>
        { fulfill d' m.id resp with processedCount := d'.processedCount + 1 }

/-- Caller half of `send_message` with `expect_response=True`
(`device.py` 171-182): enqueue the message and register a completion
handler under its id. -/
def sendRegister (d : Dev) (m : Message) : Dev :=
  { d with queue := d.queue ++ [m], handlers := m.id :: d.handlers }

/-- `send_message` with `expect_response=False` (`device.py` 177, 191):
enqueue only, no handler is allocated. -/
def sendNoResponse (d : Dev) (m : Message) : Dev :=
  { d with queue := d.queue ++ [m] }

/-- Timeout branch of `send_message` (`device.py` 187-189): the caller
abandons the wait and deletes its own handler key. -/
def timeoutRemove (d : Dev) (i : Nat) : Dev :=
  { d with handlers := d.handlers.erase i }

/-- `suspend()` (`device.py` 154-158). -/
def devSuspend (d : Dev) : Dev :=
  if d.state = RUNNING then { d with state := SUSPENDED } else d

/-- `resume()` (`device.py` 160-164): sets the state back to RUNNING but
creates no new run-loop task. -/
def devResume (d : Dev) : Dev :=
  if d.state = SUSPENDED then { d with state := RUNNING } else d

/-- `start()` (`device.py` 114-122): from READY it transitions to
RUNNING, launches the run loop and returns True; from any other state it
returns False and does nothing. -/
def devStart (d : Dev) : Dev × Bool :=
  if d.state = READY then ({ d with state := RUNNING, loopRunning := true }, true)
  else (d, false)

/-- `terminate()` (`device.py` 166-169): unconditionally TERMINATED. -/
def devTerminate (d : Dev) : Dev :=
  { d with state := TERMINATED }

/-- An interleaving event: a lifecycle call, one run-loop iteration
(a no-op once the loop task has exited), or a message send. -/
inductive DevEvent where
  | suspend
  | resume
  | start
  | terminate
  | loopIter
  | send (m : Message)
  deriving DecidableEq, Repr

/-- Apply one event to the device. -/
def devStep (h : Message → HandlerResult) (d : Dev) : DevEvent → Dev
  | .suspend => devSuspend d
  | .resume => devResume d
  | .start => (devStart d).1
  | .terminate => devTerminate d
  | .loopIter => runLoopIter h d
  | .send m =>
    if m.expectResponse then sendRegister d m else sendNoResponse d m

/-- Apply a sequence of events. -/
def runEvents (h : Message → HandlerResult) (d : Dev) (evs : List DevEvent) : Dev :=
  evs.foldl (devStep h) d

/-- A response dict as produced by the device handlers: the keys that
appear in `device.py`/`dte_device.py` responses, each optional because
the dicts are built ad hoc; numeric sub-metrics are an association list
mirroring the nested `"metrics"` dict. -/
structure DeviceResponse where
  status : Option String
  error : Option String
  response : Option String
  metrics : Option (List (String × ℚ))
  deriving DecidableEq, Repr

/-- State of a `DTEBareMetalDevice` relevant to inference: constructor
arguments, the `model_loaded` flag, and the `DeviceMetrics` counters it
mutates (`dte_device.py` 25-84, 189-243).  Times are rational
milliseconds; the cooperative clock advances exactly by the simulated
`asyncio.sleep` durations. -/
structure DTEDevice where
  cpuCores : Nat
  memoryMb : Nat
  modelPath : Option String
  modelLoaded : Bool
  inferenceCount : Nat
  tokensProcessed : Nat
  averageLatencyMs : ℚ
  memoryUsedMb : ℚ
  deriving DecidableEq, Repr

/-- `DTEBareMetalDevice.__init__` (`dte_device.py` 25-84):
`memory_mb = memory_gb * 1024`, `model_loaded = False`, metrics zeroed. -/
def dteMk (cpuCores memoryGb : Nat) (modelPath : Option String) : DTEDevice :=
  { cpuCores := cpuCores
    memoryMb := memoryGb * 1024
    modelPath := modelPath
    modelLoaded := false
    inferenceCount := 0
    tokensProcessed := 0
    averageLatencyMs := 0
    memoryUsedMb := 0 }

/-- `_initialize_impl` (`dte_device.py` 86-104): boot stages 0-3 always
run (0.1 s sleep each); stage 4 (`_boot_stage_4`, 0.5 s sleep) runs only
when a `model_path` is configured and is the only place that sets
`model_loaded = True`.  Returns the booted device and the boot duration
in milliseconds. -/
def dteInitialize (d : DTEDevice) : DTEDevice × ℚ :=
  match d.modelPath with
  | none => ({ d with modelLoaded := false }, 400)
  | some _ => ({ d with modelLoaded := true, memoryUsedMb := 70 * 1024 }, 900)

/-- `_simulate_inference` (`dte_device.py` 245-251):
`tokens_per_core = max_tokens / cpu_cores`, sleep
`tokens_per_core * 0.001` seconds — i.e. `max_tokens / cpu_cores`
milliseconds. -/
def simulateInferenceMs (d : DTEDevice) (maxTokens : Nat) : ℚ :=
  (maxTokens : ℚ) / (d.cpuCores : ℚ)

/-- `_handle_inference` (`dte_device.py` 189-243).  Returns the updated
device, the response dict, and the elapsed wall-clock time of the call
in milliseconds (equal to the simulated inference sleep, the only
suspension point inside the handler).  Without a loaded model it
returns the `not_ready` error dict and touches nothing. -/
def handleInference (d : DTEDevice) (maxTokens : Nat) :
    DTEDevice × DeviceResponse × ℚ :=
  if d.modelLoaded = false then
    (d,
     { status := some "not_ready"
       error := some "Model not loaded"
       response := none
       metrics := none },
     0)
  else
    let elapsedMs := simulateInferenceMs d maxTokens
    let avg :=
      if d.averageLatencyMs = 0 then elapsedMs
      else d.averageLatencyMs * (9 / 10) + elapsedMs * (1 / 10)
    let tps := if elapsedMs > 0 then (maxTokens : ℚ) / (elapsedMs / 1000) else 0
    ({ d with inferenceCount := d.inferenceCount + 1
              tokensProcessed := d.tokensProcessed + maxTokens
              averageLatencyMs := avg },
     { status := some "success"
       error := none
       response := some "[DTE Inference] Processed tokens"
       metrics := some
         [("elapsed_ms", elapsedMs),
          ("tokens_per_second", tps),
          ("cpu_cores_used", (d.cpuCores : ℚ)),
          ("memory_used_mb", d.memoryUsedMb)] },
     elapsedMs)

/-- `metrics.uptime_seconds` as refreshed by the run loop right after
processing a message (`device.py` 141): `now - loop_start`, here in
milliseconds.  `loopStartMs` is when `_run_loop` began, `callMs` when
the inference handler started, `elapsedMs` how long it took. -/
def uptimeAfterCallMs (loopStartMs callMs elapsedMs : ℚ) : ℚ :=
  (callMs + elapsedMs) - loopStartMs

/-- Keys of the base `get_status` dict (`device.py` 238-247). -/
def baseStatusKeys : List String :=
  ["device_id", "device_type", "state", "uptime", "created_at", "metadata"]

/-- Keys of `DTEBareMetalDevice.get_status` (`dte_device.py` 293-303):
the base keys plus the DTE extras.  Note there is no `"metrics"` and no
`"capabilities"` key. -/
def dteStatusKeys : List String :=
  baseStatusKeys ++
    ["runtime_state", "model_loaded", "model_path", "ggml_config",
     "recent_inference_count"]

/-- Counters and registry of `AgentSpawner` (`agent_spawner.py` 79-89);
agents are identified by the id of the device they wrap. -/
structure SpawnerState where
  agents : List Nat
  totalSpawned : Nat
  totalTerminated : Nat
  deriving DecidableEq, Repr

/-- `spawn_agent` (`agent_spawner.py` 183-231), with the outcome of
`orchestrator.spawn_device` passed explicitly (`some deviceId` when the
device constructed, initialized and registered; `none` when
initialization failed and `spawn_device` returned `None`).  On failure
it returns `None` with no partial state; on success it registers one
`SpawnedAgent` and increments `total_spawned`. -/
def spawnAgent (st : SpawnerState) (deviceOutcome : Option Nat) :
    SpawnerState × Option Nat :=
  match deviceOutcome with
  | none => (st, none)
  | some did =>
    ({ st with agents := st.agents ++ [did],
               totalSpawned := st.totalSpawned + 1 },
     some did)

/-- `spawn_agent_pool` (`agent_spawner.py` 233-246): one `spawn_agent`
per requested slot (`outcomes` lists the device-creation outcome of each
of the `pool_size` attempts), keeping only the non-`None` results. -/
def spawnAgentPool (st : SpawnerState) (outcomes : List (Option Nat)) :
    SpawnerState × List Nat :=
  match outcomes with
  | [] => (st, [])
  | o :: rest =>
    let p := spawnAgent st o
    let q := spawnAgentPool p.1 rest
    (q.1, p.2.toList ++ q.2)

/-- `parallel_task_execution` (`agent_spawner.py` 378-414):
`roleAgents` are the live agents of the requested role; if none exist a
pool of `tasks.length` agents is spawned on demand (`spawnOutcomes` are
those device-creation outcomes).  Task `i` is assigned to
`matching[i % len(matching)]`; in Python `i % 0` raises
`ZeroDivisionError`, embedded as the `Except.error` branch. -/
def parallelTaskExecution (st : SpawnerState) (roleAgents : List Nat)
    (spawnOutcomes : List (Option Nat)) (tasks : List String) :
    Except String (List (Nat × String)) :=
  let matching :=
    if roleAgents.isEmpty then (spawnAgentPool st spawnOutcomes).2
    else roleAgents
  if h : matching.length = 0 then
    if tasks.isEmpty then Except.ok []
    else Except.error "ZeroDivisionError: integer division or modulo by zero"
  else
    Except.ok <| (List.range tasks.length).zipWith
      (fun i t => (matching.get ⟨i % matching.length, Nat.mod_lt i (Nat.pos_of_ne_zero h)⟩, t))
      tasks

/-- One member of an elastic pool as seen by the monitor: its agent id,
its device's current `cpu_utilization` metric, and whether it is still
in `self.spawned_agents` (it may have been terminated externally). -/
structure PoolAgent where
  agentId : Nat
  utilization : ℚ
  registered : Bool
  deriving DecidableEq, Repr

/-- Result of one poll iteration of `_monitor_elastic_pool`: either the
monitor `break`s out (exits silently), or it continues with the new
pool list. -/
inductive MonitorOutcome where
  | exit
  | next (pool : List PoolAgent)
  deriving DecidableEq, Repr

/-- Python `min(pool, key=utilization)`: the first element of least
utilization (`agent_spawner.py` 340-343). -/
def leastUtilizedFrom (best : PoolAgent) : List PoolAgent → PoolAgent
  | [] => best
  | a :: rest =>
    leastUtilizedFrom (if a.utilization < best.utilization then a else best) rest

/-- The pool members the monitor counts as active: those still in
`self.spawned_agents` (`agent_spawner.py` 320-324). -/
def activeMembers (pool : List PoolAgent) : List PoolAgent :=
  pool.filter (·.registered)

/-- The average `cpu_utilization` over the still-registered members
(`agent_spawner.py` 317-329). -/
def avgLoad (pool : List PoolAgent) : ℚ :=
  ((activeMembers pool).map (·.utilization)).sum /
    ((activeMembers pool).length : ℚ)

/-- One poll iteration of `_monitor_elastic_pool`
(`agent_spawner.py` 305-345): `break` when no pool member is still
registered; scale up by appending the result of one `spawn_agent`
(which may fail, appending nothing) when the average load exceeds
`load_threshold * 100` and the pool list is below `max_agents`; scale
down by terminating and removing the single least-utilized member
(minimum taken over the whole pool list) when the average is below half
the threshold (times 100) and the pool list has more than one member. -/
def monitorStep (pool : List PoolAgent) (maxAgents : Nat)
    (loadThreshold : ℚ) (spawnResult : Option PoolAgent) : MonitorOutcome :=
  if (activeMembers pool).length = 0 then .exit
  else if avgLoad pool > loadThreshold * 100 ∧ pool.length < maxAgents then
    match spawnResult with
    | some a => .next (pool ++ [a])
    | none => .next pool
  else if avgLoad pool < (loadThreshold * (1 / 2)) * 100 ∧ pool.length > 1 then
    match pool with
    | [] => .next []
    | p :: ps => .next ((p :: ps).erase (leastUtilizedFrom p ps))
  else .next pool

/-- An `AttackResult` (`red_team.py` 48-72), restricted to the fields
the claims are about (scenario name, success flag, impact score,
recommendations). -/
structure AttackResult where
  scenarioName : String
  success : Bool
  impactScore : ℚ
  recommendations : List String
  deriving DecidableEq, Repr

/-- The attention signal read by `_attack_attention_depletion`
(`red_team.py` 224-225):
`metrics = response.get("metrics", {}) if response else {}`, then
`attention_value = metrics.get("attention_value", 100)`. -/
def attentionValueOf (resp : Option DeviceResponse) : ℚ :=
  (((resp.bind (·.metrics)).getD []).lookup "attention_value").getD 100

/-- `_attack_attention_depletion` (`red_team.py` 203-248): success when
the attention value is below the declared threshold 30,
`impact = 1.0 - attention/100`. -/
def attackAttentionDepletion (resp : Option DeviceResponse) : AttackResult :=
  let attention := attentionValueOf resp
  let success := attention < 30
  { scenarioName := "Attention Depletion via Recursive Queries"
    success := success
    impactScore := 1 - attention / 100
    recommendations :=
      if success then
        ["Implement attention budget limits per query",
         "Add recursive depth detection and throttling"]
      else [] }

/-- The memory-utilization signal of `_attack_memory_exhaustion`
(`red_team.py` 269-273): `memory_used` defaults to 0 when the status has
no `"metrics"` key, `memory_total` defaults to 1 when it has no
`"capabilities"` key. -/
def memoryUtilization (memUsed memTotal : ℚ) : ℚ :=
  if memTotal > 0 then memUsed / memTotal * 100 else 0

/-- `_attack_memory_exhaustion` (`red_team.py` 250-296): success when
utilization exceeds the declared 95, `impact = utilization / 100`. -/
def attackMemoryExhaustion (memUsed memTotal : ℚ) : AttackResult :=
  let util := memoryUtilization memUsed memTotal
  let success := util > 95
  { scenarioName := "Memory Exhaustion via Large Context"
    success := success
    impactScore := util / 100
    recommendations :=
      if success then
        ["Implement hard limits on context window size",
         "Add memory pressure detection and graceful degradation"]
      else [] }

/-- `_attack_prompt_injection` (`red_team.py` 298-353): impact 0.7 when
an override keyword surfaced in some response, 0.2 otherwise. -/
def attackPromptInjection (behaviorDeviation : Bool) : AttackResult :=
  { scenarioName := "Adversarial Prompt Injection"
    success := behaviorDeviation
    impactScore := if behaviorDeviation then 7 / 10 else 2 / 10
    recommendations :=
      if behaviorDeviation then
        ["Implement prompt sanitization and validation",
         "Add system instruction isolation",
         "Use prompt templates with strict boundaries"]
      else ["Continue monitoring for novel injection techniques"] }

/-- The timing-variance ratio of `_attack_timing_analysis`
(`red_team.py` 383-388): `(max - min) / min` when more than one timing
was collected and the minimum is positive, else 0. -/
def varianceRatio (timings : List ℚ) : ℚ :=
  match timings with
  | [] => 0
  | [_] => 0
  | t :: ts =>
    let mx := ts.foldl max t
    let mn := ts.foldl min t
    if mn > 0 then (mx - mn) / mn else 0

/-- `_attack_timing_analysis` (`red_team.py` 355-410): success when the
ratio exceeds 2, `impact = min(ratio / 10, 1.0)`. -/
def attackTimingAnalysis (timings : List ℚ) : AttackResult :=
  let ratio := varianceRatio timings
  { scenarioName := "Inference Timing Side-Channel"
    success := ratio > 2
    impactScore := min (ratio / 10) 1
    recommendations :=
      if ratio > 2 then
        ["Implement constant-time operations where possible",
         "Add timing noise to prevent analysis"]
      else [] }

/-- `_attack_dos` (`red_team.py` 412-467): 100 concurrent requests,
`failures` of them failed; `failure_rate = failures / 100`, success when
it exceeds the declared 0.5, `impact = failure_rate`. -/
def attackDos (failures : Nat) : AttackResult :=
  let rate := (failures : ℚ) / 100
  { scenarioName := "Distributed Inference DoS"
    success := rate > 1 / 2
    impactScore := rate
    recommendations :=
      if rate > 1 / 2 then
        ["Implement request rate limiting",
         "Add request queue with backpressure",
         "Implement graceful degradation under load"]
      else [] }

/-- The zero-impact result `execute_scenario` builds when the attack
procedure raised (`red_team.py` 178-189). -/
def failedResult (name : String) : AttackResult :=
  { scenarioName := name
    success := false
    impactScore := 0
    recommendations := ["Fix attack execution error"] }

/-- `execute_scenario` (`red_team.py` 166-189): `outcome` is what
`scenario.attack_fn` did (`some r` = returned a result, `none` =
raised).  A returned result is appended to `self.results`; the
exception-path result is returned but NOT appended. -/
def executeScenario (results : List AttackResult) (name : String)
    (outcome : Option AttackResult) : List AttackResult × AttackResult :=
  match outcome with
  | some r => (results ++ [r], r)
  | none => (results, failedResult name)

/-- `results` after running a sequence of scenarios (name, procedure
outcome) starting from a given results list. -/
def executeAll (results : List AttackResult)
    (runs : List (String × Option AttackResult)) : List AttackResult :=
  match runs with
  | [] => results
  | (n, o) :: rest => executeAll (executeScenario results n o).1 rest

/-- The `summary` block of `generate_report` (`red_team.py` 469-507). -/
structure ReportSummary where
  totalAttacks : Nat
  successfulAttacks : Nat
  successRate : ℚ
  averageImpactScore : ℚ
  deriving DecidableEq, Repr

/-- `generate_report` (`red_team.py` 469-507): `none` embeds the
`{"error": "No attack results available"}` early return. -/
def generateReport (results : List AttackResult) : Option ReportSummary :=
  match results with
  | [] => none
  | _ =>
    some
      { totalAttacks := results.length
        successfulAttacks := (results.filter (·.success)).length
        successRate := ((results.filter (·.success)).length : ℚ) / (results.length : ℚ)
        averageImpactScore := (results.map (·.impactScore)).sum / (results.length : ℚ) }

/-! ## Theorems -/

/-- C1 (counterexample): TERMINATED is not absorbing over the listed
lifecycle operations.  The call sequence initialize-start-terminate
reaches TERMINATED, yet a further `initialize()` call — whose body sets
`state = INITIALIZING` with no guard and ends in READY — moves the
device out of TERMINATED, refuting "once a device's state is TERMINATED
no later operation changes it to any other state". -/
theorem lifecycle_terminated_not_absorbing_counterexample :
    runOps DeviceState.UNINITIALIZED
        [LifecycleOp.initializeOk, LifecycleOp.start, LifecycleOp.terminate] =
      DeviceState.TERMINATED ∧
    runOps DeviceState.UNINITIALIZED
        [LifecycleOp.initializeOk, LifecycleOp.start, LifecycleOp.terminate,
         LifecycleOp.initializeOk] = DeviceState.READY ∧
    DeviceState.READY ≠ DeviceState.TERMINATED := by
  decide

/-- C1 (amended): for the lifecycle operations other than `initialize`
(start, suspend, resume, terminate), every transition is monotone along
UNINITIALIZED → INITIALIZING → READY → RUNNING except the
RUNNING ↔ SUSPENDED toggle, TERMINATED is absorbing over any sequence of
such operations, and a TERMINATED device never processes another
message: its run-loop iteration exits without touching the processed
count.  Only `initialize()`, which unconditionally re-enters
INITIALIZING and ends READY or ERROR, escapes TERMINATED. -/
theorem lifecycle_monotone_and_terminated_absorbing :
    (∀ (s : DeviceState) (op : LifecycleOp), nonInit op →
      monotoneOrToggle s (lifecycleStep s op)) ∧
    (∀ (s : DeviceState) (op : LifecycleOp), nonInit op →
      s = DeviceState.TERMINATED → lifecycleStep s op = DeviceState.TERMINATED) ∧
    (∀ ops : List LifecycleOp, (∀ op ∈ ops, nonInit op) →
      runOps DeviceState.TERMINATED ops = DeviceState.TERMINATED) ∧
    (∀ (h : Message → HandlerResult) (d : Dev), d.state = DeviceState.TERMINATED →
      (runLoopIter h d).processedCount = d.processedCount ∧
        (runLoopIter h d).loopRunning = false) := by
  refine ⟨by decide, by decide, ?_, ?_⟩
  · intro ops hops
    induction ops with
    | nil => rfl
    | cons op rest ih =>
      have hop : nonInit op := hops op (List.mem_cons_self op rest)
      have hstep : ∀ o : LifecycleOp, nonInit o →
          lifecycleStep DeviceState.TERMINATED o = DeviceState.TERMINATED := by
        decide
      show runOps (lifecycleStep DeviceState.TERMINATED op) rest = DeviceState.TERMINATED
      rw [hstep op hop]
      exact ih fun o ho => hops o (List.mem_cons_of_mem op ho)
  · intro h d hd
    unfold runLoopIter
    rcases hb : d.loopRunning with _ | _
    · simp [hb]
    · simp [hb, hd]

/-- C1 witness: the amended theorem applied at concrete inputs. -/
theorem lifecycle_monotone_and_terminated_absorbing_witness :
    monotoneOrToggle DeviceState.READY
        (lifecycleStep DeviceState.READY LifecycleOp.start) ∧
    runOps DeviceState.TERMINATED
        [LifecycleOp.start, LifecycleOp.suspend, LifecycleOp.resume,
         LifecycleOp.terminate] = DeviceState.TERMINATED := by
  constructor
  · exact lifecycle_monotone_and_terminated_absorbing.1
      DeviceState.READY LifecycleOp.start (by decide)
  · exact lifecycle_monotone_and_terminated_absorbing.2.2.1
      [LifecycleOp.start, LifecycleOp.suspend, LifecycleOp.resume,
       LifecycleOp.terminate] (by decide)

/-- Helper: once the run-loop task has exited and the state is not
READY, no event restarts the loop, reaches READY, or processes a
message. -/
theorem devStep_preserves_dead (h : Message → HandlerResult) (d : Dev)
    (e : DevEvent) (hl : d.loopRunning = false)
    (hr : d.state ≠ DeviceState.READY) :
    (devStep h d e).loopRunning = false ∧
      (devStep h d e).state ≠ DeviceState.READY ∧
      (devStep h d e).processedCount = d.processedCount := by
  cases e with
  | suspend =>
    unfold devStep devSuspend
    by_cases hs : d.state = DeviceState.RUNNING <;> simp [hs, hl, hr]
  | resume =>
    unfold devStep devResume
    by_cases hs : d.state = DeviceState.SUSPENDED <;> simp [hs, hl, hr]
  | start =>
    unfold devStep devStart
    simp [hr, hl]
  | terminate =>
    unfold devStep devTerminate
    simp [hl]
  | loopIter =>
    unfold devStep runLoopIter
    simp [hl, hr]
  | send m =>
    unfold devStep sendRegister sendNoResponse
    by_cases he : m.expectResponse <;> simp [he, hl, hr]

/-- Helper: the dead-loop invariant over any event sequence. -/
theorem runEvents_preserves_dead (h : Message → HandlerResult)
    (evs : List DevEvent) (d : Dev) (hl : d.loopRunning = false)
    (hr : d.state ≠ DeviceState.READY) :
    (runEvents h d evs).loopRunning = false ∧
      (runEvents h d evs).state ≠ DeviceState.READY ∧
      (runEvents h d evs).processedCount = d.processedCount := by
  induction evs generalizing d with
  | nil => exact ⟨hl, hr, rfl⟩
  | cons e rest ih =>
    obtain ⟨h1, h2, h3⟩ := devStep_preserves_dead h d e hl hr
    obtain ⟨g1, g2, g3⟩ := ih (devStep h d e) h1 h2
    refine ⟨g1, g2, ?_⟩
    show (runEvents h (devStep h d e) rest).processedCount = d.processedCount
    rw [g3, h3]

/-- C8: from a RUNNING device with a live run loop, `suspend()` makes
the loop's continuation condition (`state == RUNNING`) fail, so its next
iteration exits; a subsequent `resume()` sets the state back to RUNNING
without relaunching the loop; `start()` then returns False because the
state is not READY; and over any further sequence of lifecycle calls,
sends and loop iterations the loop stays dead and the device never
processes another message. -/
theorem suspend_resume_leaves_running_device_dead
    (h : Message → HandlerResult) (d : Dev) (evs : List DevEvent)
    (hs : d.state = DeviceState.RUNNING) (hl : d.loopRunning = true) :
    (devSuspend d).state = DeviceState.SUSPENDED ∧
    (runLoopIter h (devSuspend d)).loopRunning = false ∧
    (devResume (runLoopIter h (devSuspend d))).state = DeviceState.RUNNING ∧
    (devResume (runLoopIter h (devSuspend d))).loopRunning = false ∧
    (devStart (devResume (runLoopIter h (devSuspend d)))).2 = false ∧
    (runEvents h (devResume (runLoopIter h (devSuspend d))) evs).loopRunning
        = false ∧
    (runEvents h (devResume (runLoopIter h (devSuspend d))) evs).processedCount
        = d.processedCount := by
  have h1 : (devSuspend d).state = DeviceState.SUSPENDED := by
    unfold devSuspend; simp [hs]
  have hqueue : (devSuspend d).loopRunning = true := by
    unfold devSuspend; simp [hs, hl]
  have h2 : runLoopIter h (devSuspend d) = { devSuspend d with loopRunning := false } := by
    unfold runLoopIter
    simp [hqueue, h1]
  have h3 : (devResume (runLoopIter h (devSuspend d))).state = DeviceState.RUNNING := by
    unfold devResume
    simp [h2, h1]
  have h4 : (devResume (runLoopIter h (devSuspend d))).loopRunning = false := by
    unfold devResume
    rw [h2]
    simp [h1]
  have h5 : (devStart (devResume (runLoopIter h (devSuspend d)))).2 = false := by
    unfold devStart
    simp [h3]
  have h6 : (devResume (runLoopIter h (devSuspend d))).processedCount
      = d.processedCount := by
    unfold devResume
    rw [h2]
    simp [h1, devSuspend, hs]
  have hready : (devResume (runLoopIter h (devSuspend d))).state ≠ DeviceState.READY := by
    rw [h3]; decide
  obtain ⟨g1, _, g3⟩ :=
    runEvents_preserves_dead h evs (devResume (runLoopIter h (devSuspend d))) h4 hready
  exact ⟨h1, by rw [h2], h3, h4, h5, g1, by rw [g3, h6]⟩

/-- C8 witness: the theorem at a concrete running device and a concrete
later event sequence. -/
theorem suspend_resume_leaves_running_device_dead_witness :
    (runEvents (fun _ => HandlerResult.ok "r")
        (devResume (runLoopIter (fun _ => HandlerResult.ok "r")
          (devSuspend
            { state := DeviceState.RUNNING, loopRunning := true,
              queue := [{ id := 7, type := "inference", expectResponse := true }],
              handlers := [7], delivered := [], errorCount := 0,
              processedCount := 0 })))
        [DevEvent.start, DevEvent.loopIter,
         DevEvent.send { id := 8, type := "query", expectResponse := true },
         DevEvent.loopIter, DevEvent.suspend, DevEvent.resume,
         DevEvent.loopIter]).processedCount = 0 :=
  (suspend_resume_leaves_running_device_dead (fun _ => HandlerResult.ok "r")
    { state := DeviceState.RUNNING, loopRunning := true,
      queue := [{ id := 7, type := "inference", expectResponse := true }],
      handlers := [7], delivered := [], errorCount := 0, processedCount := 0 }
    [DevEvent.start, DevEvent.loopIter,
     DevEvent.send { id := 8, type := "query", expectResponse := true },
     DevEvent.loopIter, DevEvent.suspend, DevEvent.resume, DevEvent.loopIter]
    rfl rfl).2.2.2.2.2.2

/-- C3 (counterexample): a handler exception does NOT produce an
error-shaped response for the sender.  A RUNNING device with one queued
message whose sender registered handle 1, whose handler raises: after
the run-loop iteration the error counter is incremented and the loop is
still alive, but nothing was delivered and the sender's handle is still
pending — the `except` in `_run_loop` skips the response-fulfillment
tail of `_process_message`, so the caller is left to time out. -/
theorem handler_exception_counterexample :
    runLoopIter (fun _ => HandlerResult.raises)
        { state := DeviceState.RUNNING, loopRunning := true,
          queue := [{ id := 1, type := "inference", expectResponse := true }],
          handlers := [1], delivered := [], errorCount := 0,
          processedCount := 0 } =
      { state := DeviceState.RUNNING, loopRunning := true, queue := [],
        handlers := [1], delivered := [], errorCount := 1,
        processedCount := 0 } := by
  rfl

/-- C3 (amended): for every RUNNING device with a live run loop, when
the dequeued message's handler raises, the exception is caught per
message (by the loop's `except`), the device's error counter is
incremented, and the run loop continues processing subsequent messages —
but no error-shaped response is produced: the sender's completion handle
is left unfulfilled (the caller's 30 s wait will time out) and the
delivered set is unchanged. -/
theorem handler_exception_caught_loop_continues
    (h : Message → HandlerResult) (d : Dev) (m : Message)
    (rest : List Message)
    (hs : d.state = DeviceState.RUNNING) (hl : d.loopRunning = true)
    (hq : d.queue = m :: rest) (hraise : h m = HandlerResult.raises) :
    runLoopIter h d = { d with queue := rest, errorCount := d.errorCount + 1 } ∧
    (runLoopIter h d).handlers = d.handlers ∧
    (runLoopIter h d).delivered = d.delivered ∧
    (runLoopIter h d).loopRunning = true ∧
    (∀ (m2 : Message) (rest2 : List Message) (r : String),
      rest = m2 :: rest2 → h m2 = HandlerResult.ok r →
      (runLoopIter h (runLoopIter h d)).processedCount =
        d.processedCount + 1) := by
  have key : runLoopIter h d =
      { d with queue := rest, errorCount := d.errorCount + 1 } := by
    unfold runLoopIter
    simp [hl, hs, hq, hraise]
  refine ⟨key, by rw [key], by rw [key], by rw [key]; exact hl, ?_⟩
  intro m2 rest2 r hrest hok
  rw [key]
  unfold runLoopIter
  simp [hl, hs, hrest, hok]

/-- C3 witness: the amended theorem at a concrete device, raising
handler for message 1, succeeding handler for message 2. -/
theorem handler_exception_caught_loop_continues_witness :
    (runLoopIter
        (fun m => if m.id = 1 then HandlerResult.raises else HandlerResult.ok "r2")
        (runLoopIter
          (fun m => if m.id = 1 then HandlerResult.raises else HandlerResult.ok "r2")
          { state := DeviceState.RUNNING, loopRunning := true,
            queue := [{ id := 1, type := "inference", expectResponse := true },
                      { id := 2, type := "query", expectResponse := true }],
            handlers := [1, 2], delivered := [], errorCount := 0,
            processedCount := 0 })).processedCount = 0 + 1 :=
  (handler_exception_caught_loop_continues
    (fun m => if m.id = 1 then HandlerResult.raises else HandlerResult.ok "r2")
    { state := DeviceState.RUNNING, loopRunning := true,
      queue := [{ id := 1, type := "inference", expectResponse := true },
                { id := 2, type := "query", expectResponse := true }],
      handlers := [1, 2], delivered := [], errorCount := 0,
      processedCount := 0 }
    { id := 1, type := "inference", expectResponse := true }
    [{ id := 2, type := "query", expectResponse := true }]
    rfl rfl rfl rfl).2.2.2.2
    { id := 2, type := "query", expectResponse := true } [] "r2" rfl rfl

/-- C6: response correlation is per message id.  For a RUNNING device
whose next queued message `m` has a successfully responding handler:
fulfilling consumes exactly the handle keyed by `m.id`, delivering `m`'s
own response to it; any other caller's handle `j` is untouched; if
`m.id` has no registered handle (the caller already timed out and
removed it) the response is silently dropped; a caller's timeout removes
only its own handle; and (with the handler keys unique, as dict keys
are) the consumed handle is gone afterwards, so it can never be
fulfilled a second time. -/
theorem response_correlation_per_message_id
    (h : Message → HandlerResult) (d : Dev) (m : Message)
    (rest : List Message) (r : String) (j : Nat)
    (hs : d.state = DeviceState.RUNNING) (hl : d.loopRunning = true)
    (hq : d.queue = m :: rest) (hok : h m = HandlerResult.ok r)
    (hj : j ≠ m.id) (hnodup : d.handlers.Nodup) :
    (m.id ∈ d.handlers →
      (runLoopIter h d).handlers = d.handlers.erase m.id ∧
      (runLoopIter h d).delivered = (m.id, r) :: d.delivered ∧
      m.id ∉ (runLoopIter h d).handlers) ∧
    (j ∈ (runLoopIter h d).handlers ↔ j ∈ d.handlers) ∧
    (m.id ∉ d.handlers →
      (runLoopIter h d).handlers = d.handlers ∧
      (runLoopIter h d).delivered = d.delivered) ∧
    (timeoutRemove d j).handlers = d.handlers.erase j ∧
    (m.id ∈ (timeoutRemove d j).handlers ↔ m.id ∈ d.handlers) := by
  have key : runLoopIter h d =
      { fulfill { d with queue := rest } m.id r with
          processedCount := d.processedCount + 1 } := by
    unfold runLoopIter
    simp [hl, hs, hq, hok]
  by_cases hmem : m.id ∈ d.handlers
  · have hful : fulfill { d with queue := rest } m.id r =
        { d with queue := rest, handlers := d.handlers.erase m.id,
                 delivered := (m.id, r) :: d.delivered } := by
      unfold fulfill
      simp [hmem]
    refine ⟨fun _ => ⟨?_, ?_, ?_⟩, ?_, fun hn => absurd hmem hn, ?_, ?_⟩
    · rw [key, hful]
    · rw [key, hful]
    · rw [key, hful]
      show m.id ∉ d.handlers.erase m.id
      exact fun hc => ((hnodup.mem_erase_iff).1 hc).1 rfl
    · rw [key, hful]
      show j ∈ d.handlers.erase m.id ↔ j ∈ d.handlers
      exact List.mem_erase_of_ne hj
    · rfl
    · show m.id ∈ d.handlers.erase j ↔ m.id ∈ d.handlers
      exact List.mem_erase_of_ne (Ne.symm hj)
  · have hful : fulfill { d with queue := rest } m.id r =
        { d with queue := rest } := by
      unfold fulfill
      simp [hmem]
    refine ⟨fun hc => absurd hc hmem, ?_, fun _ => ⟨?_, ?_⟩, ?_, ?_⟩
    · rw [key, hful]
    · rw [key, hful]
    · rw [key, hful]
    · rfl
    · show m.id ∈ d.handlers.erase j ↔ m.id ∈ d.handlers
      exact List.mem_erase_of_ne (Ne.symm hj)

/-- C6 witness: two outstanding callers with ids 1 and 2; processing the
message with id 1 delivers its own response to handle 1 only and leaves
handle 2 registered. -/
theorem response_correlation_per_message_id_witness :
    (runLoopIter (fun m => HandlerResult.ok (if m.id = 1 then "r1" else "r2"))
        { state := DeviceState.RUNNING, loopRunning := true,
          queue := [{ id := 1, type := "inference", expectResponse := true }],
          handlers := [1, 2], delivered := [], errorCount := 0,
          processedCount := 0 }).handlers = [1, 2].erase 1 ∧
    (runLoopIter (fun m => HandlerResult.ok (if m.id = 1 then "r1" else "r2"))
        { state := DeviceState.RUNNING, loopRunning := true,
          queue := [{ id := 1, type := "inference", expectResponse := true }],
          handlers := [1, 2], delivered := [], errorCount := 0,
          processedCount := 0 }).delivered = [(1, "r1")] ∧
    (2 ∈ (runLoopIter (fun m => HandlerResult.ok (if m.id = 1 then "r1" else "r2"))
        { state := DeviceState.RUNNING, loopRunning := true,
          queue := [{ id := 1, type := "inference", expectResponse := true }],
          handlers := [1, 2], delivered := [], errorCount := 0,
          processedCount := 0 }).handlers ↔
      (2 : Nat) ∈ [1, 2]) := by
  have inst := response_correlation_per_message_id
    (fun m => HandlerResult.ok (if m.id = 1 then "r1" else "r2"))
    { state := DeviceState.RUNNING, loopRunning := true,
      queue := [{ id := 1, type := "inference", expectResponse := true }],
      handlers := [1, 2], delivered := [], errorCount := 0,
      processedCount := 0 }
    { id := 1, type := "inference", expectResponse := true } [] "r1" 2
    rfl rfl rfl rfl (by decide) (by decide)
  obtain ⟨hmem, hiff, -, -, -⟩ := inst
  obtain ⟨ha, hb, -⟩ := hmem (by decide)
  exact ⟨ha, by rw [hb], hiff⟩

/-- C2 (counterexample): a `DTEBareMetalDevice` spawned with 8 cpu
cores and 16 GB memory and no further configuration has no `model_path`,
so boot skips stage 4 and `model_loaded` stays False; the inference
message `{type: inference, prompt: "hello", max_tokens: 100}` is then
answered with the `{"error": "Model not loaded", "status": "not_ready"}`
dict — not a success response, and carrying no elapsed-time metric at
all. -/
theorem dte_inference_without_model_counterexample :
    (handleInference (dteInitialize (dteMk 8 16 none)).1 100).2.1 =
      { status := some "not_ready", error := some "Model not loaded",
        response := none, metrics := none } ∧
    (handleInference (dteInitialize (dteMk 8 16 none)).1 100).2.1.status ≠
      some "success" := by
  constructor
  · rfl
  · decide

/-- C2 (amended): when the device is additionally configured with a
`model_path` (so boot stage 4 loads the model), the inference message
with `max_tokens = 100` on the 8-core device yields a success response;
its elapsed-time metric is `100/8 = 12.5` ms, which is positive and
well within the 30 s response timeout; and the uptime the run loop
records right after the call — measured from the earlier loop start —
is at least that elapsed time. -/
theorem dte_inference_with_model_success
    (p : String) (loopStartMs callMs : ℚ) (hle : loopStartMs ≤ callMs) :
    (handleInference (dteInitialize (dteMk 8 16 (some p))).1 100).2.1.status =
      some "success" ∧
    ((handleInference (dteInitialize (dteMk 8 16 (some p))).1 100).2.1.metrics.getD
        []).lookup "elapsed_ms" = some (25 / 2) ∧
    (handleInference (dteInitialize (dteMk 8 16 (some p))).1 100).2.2 = 25 / 2 ∧
    (0 : ℚ) < 25 / 2 ∧ (25 / 2 : ℚ) ≤ 30000 ∧
    uptimeAfterCallMs loopStartMs callMs
        (handleInference (dteInitialize (dteMk 8 16 (some p))).1 100).2.2 ≥
      (handleInference (dteInitialize (dteMk 8 16 (some p))).1 100).2.2 := by
  have hd : (dteInitialize (dteMk 8 16 (some p))).1 =
      { cpuCores := 8, memoryMb := 16384, modelPath := some p,
        modelLoaded := true, inferenceCount := 0, tokensProcessed := 0,
        averageLatencyMs := 0, memoryUsedMb := 70 * 1024 } := by
    unfold dteInitialize dteMk
    norm_num
  rw [hd]
  have hval : handleInference
      ({ cpuCores := 8, memoryMb := 16384, modelPath := some p,
         modelLoaded := true, inferenceCount := 0, tokensProcessed := 0,
         averageLatencyMs := 0, memoryUsedMb := 70 * 1024 } : DTEDevice) 100 =
      ({ cpuCores := 8, memoryMb := 16384, modelPath := some p,
         modelLoaded := true, inferenceCount := 1, tokensProcessed := 100,
         averageLatencyMs := 25 / 2, memoryUsedMb := 70 * 1024 },
       { status := some "success", error := none,
         response := some "[DTE Inference] Processed tokens",
         metrics := some
           [("elapsed_ms", 25 / 2), ("tokens_per_second", 8000),
            ("cpu_cores_used", 8), ("memory_used_mb", 70 * 1024)] },
       25 / 2) := by
    unfold handleInference simulateInferenceMs
    norm_num
  rw [hval]
  refine ⟨rfl, by norm_num [List.lookup], rfl, by norm_num, by norm_num, ?_⟩
  unfold uptimeAfterCallMs
  linarith

/-- C2 witness: the amended theorem at a concrete model path and
concrete loop-start/call times. -/
theorem dte_inference_with_model_success_witness :
    (handleInference (dteInitialize (dteMk 8 16 (some "/models/m.gguf"))).1
        100).2.1.status = some "success" ∧
    uptimeAfterCallMs 0 1
        (handleInference (dteInitialize (dteMk 8 16 (some "/models/m.gguf"))).1
          100).2.2 ≥
      (handleInference (dteInitialize (dteMk 8 16 (some "/models/m.gguf"))).1
        100).2.2 := by
  obtain ⟨h1, -, -, -, -, h6⟩ :=
    dte_inference_with_model_success "/models/m.gguf" 0 1 (by norm_num)
  exact ⟨h1, h6⟩

/-- Helper: full characterisation of `spawn_agent_pool`, by induction on
the per-slot device-creation outcomes. -/
theorem spawnAgentPool_spec (outcomes : List (Option Nat)) :
    ∀ st : SpawnerState,
      (spawnAgentPool st outcomes).2.length + outcomes.countP (·.isNone) =
        outcomes.length ∧
      (spawnAgentPool st outcomes).1.totalSpawned =
        st.totalSpawned + (spawnAgentPool st outcomes).2.length ∧
      (spawnAgentPool st outcomes).1.agents =
        st.agents ++ (spawnAgentPool st outcomes).2 ∧
      (spawnAgentPool st outcomes).1.totalTerminated = st.totalTerminated := by
  induction outcomes with
  | nil => intro st; simp [spawnAgentPool]
  | cons o rest ih =>
    intro st
    cases o with
    | none =>
      obtain ⟨h1, h2, h3, h4⟩ := ih st
      simpa [spawnAgentPool, spawnAgent, List.countP_cons] using
        ⟨by omega, h2, h3, h4⟩
    | some did =>
      obtain ⟨h1, h2, h3, h4⟩ :=
        ih { st with agents := st.agents ++ [did],
                     totalSpawned := st.totalSpawned + 1 }
      have hts : ({ st with agents := st.agents ++ [did], totalSpawned := st.totalSpawned + 1 } : SpawnerState).totalSpawned = st.totalSpawned + 1 := rfl
      have hta : ({ st with agents := st.agents ++ [did], totalSpawned := st.totalSpawned + 1 } : SpawnerState).agents = st.agents ++ [did] := rfl
      have htt : ({ st with agents := st.agents ++ [did], totalSpawned := st.totalSpawned + 1 } : SpawnerState).totalTerminated = st.totalTerminated := rfl
      rw [hts] at h2
      rw [hta] at h3
      rw [htt] at h4
      have hunfold : spawnAgentPool st (some did :: rest) = ((spawnAgentPool { st with agents := st.agents ++ [did], totalSpawned := st.totalSpawned + 1 } rest).1, did :: (spawnAgentPool { st with agents := st.agents ++ [did], totalSpawned := st.totalSpawned + 1 } rest).2) := rfl
      rw [hunfold]
      refine ⟨?_, ?_, ?_, ?_⟩
      · simp only [List.length_cons, List.countP_cons, Option.isNone_some,
          Bool.false_eq_true, if_false]
        omega
      · rw [List.length_cons, h2]
        omega
      · rw [h3]
        simp
      · exact h4

/-- C4: spawning a pool of `N` agents when device creation fails for
exactly `K` of the `N` attempts returns exactly `N − K` SpawnedAgent
records (failures are filtered out and leave no partial agent state: the
registry grows by exactly the returned records), and `total_spawned`
increases only by the number of successes; when every creation fails the
pool is empty and the counter is unchanged. -/
theorem spawn_pool_returns_exactly_successes
    (st : SpawnerState) (outcomes : List (Option Nat)) :
    (spawnAgentPool st outcomes).2.length + outcomes.countP (·.isNone) =
      outcomes.length ∧
    (spawnAgentPool st outcomes).1.totalSpawned =
      st.totalSpawned + (spawnAgentPool st outcomes).2.length ∧
    (spawnAgentPool st outcomes).1.agents =
      st.agents ++ (spawnAgentPool st outcomes).2 ∧
    (spawnAgentPool st outcomes).1.totalTerminated = st.totalTerminated ∧
    ((∀ o ∈ outcomes, o = none) →
      (spawnAgentPool st outcomes).2 = [] ∧
      (spawnAgentPool st outcomes).1.totalSpawned = st.totalSpawned) := by
  obtain ⟨h1, h2, h3, h4⟩ := spawnAgentPool_spec outcomes st
  refine ⟨h1, h2, h3, h4, fun hall => ?_⟩
  have hcount : outcomes.countP (·.isNone) = outcomes.length := by
    rw [List.countP_eq_length]
    intro o ho
    rw [hall o ho]
    rfl
  have hlen : (spawnAgentPool st outcomes).2.length = 0 := by omega
  have hnil : (spawnAgentPool st outcomes).2 = [] :=
    List.length_eq_zero.mp hlen
  exact ⟨hnil, by rw [h2, hlen]; omega⟩

/-- C4 witness: a pool of 4 attempts of which 2 fail yields 2 agents
and bumps the counter by 2. -/
theorem spawn_pool_returns_exactly_successes_witness :
    (spawnAgentPool
        { agents := [], totalSpawned := 0, totalTerminated := 0 }
        [some 10, none, some 11, none]).2.length + 2 = 4 ∧
    (spawnAgentPool
        { agents := [], totalSpawned := 0, totalTerminated := 0 }
        [some 10, none, some 11, none]).1.totalSpawned = 0 + 2 := by
  obtain ⟨h1, h2, -, -, -⟩ := spawn_pool_returns_exactly_successes
    { agents := [], totalSpawned := 0, totalTerminated := 0 }
    [some 10, none, some 11, none]
  constructor
  · simpa using h1
  · simpa using h2

/-- C9: `parallel_task_execution` with a non-empty task list, no live
agent of the requested role, and an on-demand pool spawn in which every
device creation fails, reaches the round-robin index computation
`i % len(matching_agents)` with an empty agent list, raising
`ZeroDivisionError` instead of returning collected per-task outcomes. -/
theorem parallel_task_execution_empty_pool_raises
    (st : SpawnerState) (spawnOutcomes : List (Option Nat))
    (tasks : List String) (ht : tasks ≠ [])
    (hfail : ∀ o ∈ spawnOutcomes, o = none) :
    parallelTaskExecution st [] spawnOutcomes tasks =
      Except.error "ZeroDivisionError: integer division or modulo by zero" := by
  obtain ⟨h1, -, -, -⟩ := spawnAgentPool_spec spawnOutcomes st
  have hcount : spawnOutcomes.countP (·.isNone) = spawnOutcomes.length := by
    rw [List.countP_eq_length]
    intro o ho
    rw [hfail o ho]
    rfl
  have hlen : (spawnAgentPool st spawnOutcomes).2.length = 0 := by omega
  unfold parallelTaskExecution
  simp [hlen, ht]

/-- C9 witness: two tasks, both on-demand spawns fail. -/
theorem parallel_task_execution_empty_pool_raises_witness :
    parallelTaskExecution
        { agents := [], totalSpawned := 0, totalTerminated := 0 }
        [] [none, none] ["t1", "t2"] =
      Except.error "ZeroDivisionError: integer division or modulo by zero" :=
  parallel_task_execution_empty_pool_raises
    { agents := [], totalSpawned := 0, totalTerminated := 0 }
    [none, none] ["t1", "t2"] (by decide) (by decide)

/-- Helper: Python's `min` result is a member of the list. -/
theorem leastUtilizedFrom_mem (l : List PoolAgent) :
    ∀ b : PoolAgent, leastUtilizedFrom b l ∈ b :: l := by
  induction l with
  | nil => intro b; simp [leastUtilizedFrom]
  | cons a rest ih =>
    intro b
    simp only [leastUtilizedFrom]
    by_cases hc : a.utilization < b.utilization
    · rw [if_pos hc]
      have := ih a
      simp only [List.mem_cons] at this ⊢
      tauto
    · rw [if_neg hc]
      have := ih b
      simp only [List.mem_cons] at this ⊢
      tauto

/-- Helper: Python's `min` result has minimal utilization. -/
theorem leastUtilizedFrom_le (l : List PoolAgent) :
    ∀ b x : PoolAgent, x ∈ b :: l →
      (leastUtilizedFrom b l).utilization ≤ x.utilization := by
  induction l with
  | nil =>
    intro b x hx
    simp only [List.mem_cons, List.not_mem_nil, or_false] at hx
    subst hx
    simp [leastUtilizedFrom]
  | cons a rest ih =>
    intro b x hx
    simp only [leastUtilizedFrom]
    have hb' : (leastUtilizedFrom
          (if a.utilization < b.utilization then a else b) rest).utilization ≤
        (if a.utilization < b.utilization then a else b).utilization :=
      ih _ _ (List.mem_cons_self _ _)
    simp only [List.mem_cons] at hx
    rcases hx with hxb | hxa | hxr
    · refine le_trans hb' ?_
      by_cases hc : a.utilization < b.utilization
      · rw [if_pos hc, hxb]; exact le_of_lt hc
      · rw [if_neg hc, hxb]
    · refine le_trans hb' ?_
      by_cases hc : a.utilization < b.utilization
      · rw [if_pos hc, hxa]
      · rw [if_neg hc, hxa]; exact le_of_not_lt hc
    · exact ih _ _ (List.mem_cons_of_mem _ hxr)

/-- C5 (counterexample): the monitor does not always add an agent when
the scale-up condition holds, because the underlying `spawn_agent` can
fail and return `None`.  One registered member at utilization 90,
threshold 0.8, max 3: the average (90) exceeds 80 and the pool (size 1)
is below max, yet with a failed spawn the step leaves the pool at size
1 instead of adding exactly one agent. -/
theorem elastic_scale_up_failed_spawn_counterexample :
    avgLoad [{ agentId := 0, utilization := 90, registered := true }] >
        (4 / 5 : ℚ) * 100 ∧
    ([{ agentId := 0, utilization := 90, registered := true }] :
        List PoolAgent).length < 3 ∧
    monitorStep [{ agentId := 0, utilization := 90, registered := true }]
        3 (4 / 5) none =
      MonitorOutcome.next
        [{ agentId := 0, utilization := 90, registered := true }] := by
  refine ⟨?_, by norm_num, ?_⟩
  · unfold avgLoad activeMembers
    norm_num
  · unfold monitorStep avgLoad activeMembers
    norm_num

/-- C5 (amended): each poll step of the elastic-pool monitor changes the
pool size by at most one.  When average member utilization exceeds
`loadThreshold * 100` and the pool size is below max it adds at most one
agent — exactly one when the underlying spawn succeeds, none when it
fails — so the pool never grows beyond max; when the average is below
half the threshold and the pool size exceeds 1 it removes exactly the
single least-utilized member, shrinking by exactly one and never
emptying the pool; and the monitor exits silently precisely when no
pool member remains registered. -/
theorem elastic_monitor_step_scaling
    (pool : List PoolAgent) (maxAgents : Nat) (loadThreshold : ℚ)
    (spawnResult : Option PoolAgent) :
    (activeMembers pool = [] ↔
      monitorStep pool maxAgents loadThreshold spawnResult =
        MonitorOutcome.exit) ∧
    (∀ a : PoolAgent, activeMembers pool ≠ [] →
      avgLoad pool > loadThreshold * 100 → pool.length < maxAgents →
      spawnResult = some a →
      monitorStep pool maxAgents loadThreshold spawnResult =
          MonitorOutcome.next (pool ++ [a]) ∧
        (pool ++ [a]).length = pool.length + 1 ∧
        (pool ++ [a]).length ≤ maxAgents) ∧
    (activeMembers pool ≠ [] →
      avgLoad pool > loadThreshold * 100 → pool.length < maxAgents →
      spawnResult = none →
      monitorStep pool maxAgents loadThreshold spawnResult =
        MonitorOutcome.next pool) ∧
    (∀ p ps, pool = p :: ps → activeMembers pool ≠ [] →
      ¬(avgLoad pool > loadThreshold * 100 ∧ pool.length < maxAgents) →
      avgLoad pool < (loadThreshold * (1 / 2)) * 100 → pool.length > 1 →
      monitorStep pool maxAgents loadThreshold spawnResult =
          MonitorOutcome.next (pool.erase (leastUtilizedFrom p ps)) ∧
        (pool.erase (leastUtilizedFrom p ps)).length + 1 = pool.length ∧
        1 ≤ (pool.erase (leastUtilizedFrom p ps)).length ∧
        leastUtilizedFrom p ps ∈ pool ∧
        (∀ x ∈ pool, (leastUtilizedFrom p ps).utilization ≤ x.utilization)) ∧
    (∀ pool', monitorStep pool maxAgents loadThreshold spawnResult =
        MonitorOutcome.next pool' →
      (pool'.length = pool.length ∨ pool'.length = pool.length + 1 ∨
        pool'.length + 1 = pool.length) ∧
      (pool.length ≤ maxAgents → pool'.length ≤ maxAgents) ∧
      (1 ≤ pool.length → 1 ≤ pool'.length)) := by
  have hstep :
      monitorStep pool maxAgents loadThreshold spawnResult =
        if (activeMembers pool).length = 0 then .exit
        else if avgLoad pool > loadThreshold * 100 ∧ pool.length < maxAgents then
          match spawnResult with
          | some a => .next (pool ++ [a])
          | none => .next pool
        else if avgLoad pool < (loadThreshold * (1 / 2)) * 100 ∧ pool.length > 1 then
          match pool with
          | [] => .next []
          | p :: ps => .next ((p :: ps).erase (leastUtilizedFrom p ps))
        else .next pool := rfl
  refine ⟨?_, ?_, ?_, ?_, ?_⟩
  · rw [hstep]
    constructor
    · intro he
      rw [he]
      simp
    · intro he
      by_cases h0 : (activeMembers pool).length = 0
      · exact List.length_eq_zero.mp h0
      · rw [if_neg h0] at he
        by_cases h1 : avgLoad pool > loadThreshold * 100 ∧ pool.length < maxAgents
        · rw [if_pos h1] at he
          cases spawnResult <;> simp at he
        · rw [if_neg h1] at he
          by_cases h2 : avgLoad pool < (loadThreshold * (1 / 2)) * 100 ∧ pool.length > 1
          · rw [if_pos h2] at he
            cases pool <;> simp at he
          · rw [if_neg h2] at he
            simp at he
  · intro a hne hgt hlt hspawn
    have h0 : ¬((activeMembers pool).length = 0) := by
      intro hc
      exact hne (List.length_eq_zero.mp hc)
    rw [hstep, if_neg h0, if_pos ⟨hgt, hlt⟩, hspawn]
    exact ⟨rfl, by simp, by simp; omega⟩
  · intro hne hgt hlt hspawn
    have h0 : ¬((activeMembers pool).length = 0) := by
      intro hc
      exact hne (List.length_eq_zero.mp hc)
    rw [hstep, if_neg h0, if_pos ⟨hgt, hlt⟩, hspawn]
  · intro p ps hpool hne hnup hdown hlen
    have h0 : ¬((activeMembers pool).length = 0) := by
      intro hc
      exact hne (List.length_eq_zero.mp hc)
    have hmem : leastUtilizedFrom p ps ∈ pool := by
      rw [hpool]
      exact leastUtilizedFrom_mem ps p
    have hel : (pool.erase (leastUtilizedFrom p ps)).length + 1 = pool.length := by
      rw [List.length_erase_of_mem hmem]
      have : 1 ≤ pool.length := by rw [hpool]; simp
      omega
    refine ⟨?_, hel, by omega, hmem, ?_⟩
    · rw [hstep, if_neg h0, if_neg hnup, if_pos ⟨hdown, hlen⟩]
      subst hpool
      rfl
    · intro x hx
      rw [hpool] at hx
      exact leastUtilizedFrom_le ps p x hx
  · intro pool' hnext
    rw [hstep] at hnext
    by_cases h0 : (activeMembers pool).length = 0
    · rw [if_pos h0] at hnext
      simp at hnext
    · rw [if_neg h0] at hnext
      by_cases h1 : avgLoad pool > loadThreshold * 100 ∧ pool.length < maxAgents
      · rw [if_pos h1] at hnext
        cases hsp : spawnResult with
        | some a =>
          rw [hsp] at hnext
          simp only [MonitorOutcome.next.injEq] at hnext
          subst hnext
          have hlen : (pool ++ [a]).length = pool.length + 1 := by simp
          have hlt := h1.2
          exact ⟨Or.inr (Or.inl hlen), fun _ => by omega, fun _ => by omega⟩
        | none =>
          rw [hsp] at hnext
          simp only [MonitorOutcome.next.injEq] at hnext
          subst hnext
          exact ⟨Or.inl rfl, fun h => h, fun h => h⟩
      · rw [if_neg h1] at hnext
        by_cases h2 : avgLoad pool < (loadThreshold * (1 / 2)) * 100 ∧ pool.length > 1
        · rw [if_pos h2] at hnext
          cases hp : pool with
          | nil => rw [hp] at h2; simp at h2
          | cons p ps =>
            rw [hp] at hnext
            simp only [MonitorOutcome.next.injEq] at hnext
            subst hnext
            have hmem : leastUtilizedFrom p ps ∈ p :: ps :=
              leastUtilizedFrom_mem ps p
            have hel := List.length_erase_of_mem hmem
            rw [hp] at h2
            have hlen2 : 1 < (p :: ps).length := h2.2
            refine ⟨by omega, fun hm => by omega, fun _ => by omega⟩
        · rw [if_neg h2] at hnext
          simp only [MonitorOutcome.next.injEq] at hnext
          subst hnext
          exact ⟨Or.inl rfl, fun h => h, fun h => h⟩

/-- C5 witness: a two-member pool under low load removes exactly its
least-utilized member. -/
theorem elastic_monitor_step_scaling_witness :
    monitorStep
        [{ agentId := 0, utilization := 10, registered := true },
         { agentId := 1, utilization := 5, registered := true }]
        3 (4 / 5) none =
      MonitorOutcome.next
        ([{ agentId := 0, utilization := 10, registered := true },
          { agentId := 1, utilization := 5, registered := true }].erase
          (leastUtilizedFrom
            { agentId := 0, utilization := 10, registered := true }
            [{ agentId := 1, utilization := 5, registered := true }])) := by
  have inst := elastic_monitor_step_scaling
    [{ agentId := 0, utilization := 10, registered := true },
     { agentId := 1, utilization := 5, registered := true }]
    3 (4 / 5) none
  obtain ⟨-, -, -, hdown, -⟩ := inst
  exact (hdown
    { agentId := 0, utilization := 10, registered := true }
    [{ agentId := 1, utilization := 5, registered := true }]
    rfl
    (by unfold activeMembers; simp)
    (by unfold avgLoad activeMembers; norm_num)
    (by unfold avgLoad activeMembers; norm_num)
    (by simp)).1

/-- Helper: a `min`-fold is bounded by its initial value. -/
theorem foldl_min_le_init (l : List ℚ) : ∀ t : ℚ, l.foldl min t ≤ t := by
  induction l with
  | nil => intro t; simp
  | cons a rest ih =>
    intro t
    exact le_trans (ih (min t a)) (min_le_left t a)

/-- Helper: a `max`-fold dominates its initial value. -/
theorem init_le_foldl_max (l : List ℚ) : ∀ t : ℚ, t ≤ l.foldl max t := by
  induction l with
  | nil => intro t; simp
  | cons a rest ih =>
    intro t
    exact le_trans (le_max_left t a) (ih (max t a))

/-- Helper: the timing-variance ratio is never negative. -/
theorem varianceRatio_nonneg (timings : List ℚ) : 0 ≤ varianceRatio timings := by
  match timings with
  | [] => simp [varianceRatio]
  | [_] => simp [varianceRatio]
  | t :: t2 :: ts =>
    have hval : varianceRatio (t :: t2 :: ts) =
        if List.foldl min t (t2 :: ts) > 0 then
          (List.foldl max t (t2 :: ts) - List.foldl min t (t2 :: ts)) /
            List.foldl min t (t2 :: ts)
        else 0 := rfl
    rw [hval]
    by_cases hm : List.foldl min t (t2 :: ts) > 0
    · rw [if_pos hm]
      have hle : List.foldl min t (t2 :: ts) ≤ List.foldl max t (t2 :: ts) :=
        le_trans (foldl_min_le_init (t2 :: ts) t) (init_le_foldl_max (t2 :: ts) t)
      exact div_nonneg (by linarith) (le_of_lt hm)
    · rw [if_neg hm]

/-- C7 (counterexample): `execute_scenario` does not guarantee an impact
score in [0,1] for every device answering through the message protocol.
A target whose inference response reports `metrics.attention_value =
200` makes the attention-depletion scenario compute
`impact = 1 - 200/100 = -1 < 0`. -/
theorem impact_score_out_of_range_counterexample :
    (attackAttentionDepletion (some
        { status := some "success", error := none, response := none,
          metrics := some [("attention_value", 200)] })).impactScore = -1 ∧
    ¬(0 ≤ (attackAttentionDepletion (some
        { status := some "success", error := none, response := none,
          metrics := some [("attention_value", 200)] })).impactScore) := by
  have hv : attentionValueOf (some
      { status := some "success", error := none, response := none,
        metrics := some [("attention_value", 200)] }) = 200 := by
    unfold attentionValueOf
    simp [List.lookup]
  constructor
  · unfold attackAttentionDepletion
    rw [hv]
    norm_num
  · unfold attackAttentionDepletion
    rw [hv]
    norm_num

/-- C7 (amended): the impact scores of the prompt-injection, timing
side-channel and exception-path results are always in [0,1]; the DoS
score is in [0,1] because at most the 100 issued requests can fail; the
attention-depletion score is in [0,1] exactly when the reported
attention value lies in [0,100] (default 100 when absent), and the
memory-exhaustion score when the reported memory use is between 0 and
the reported capacity.  In particular both hold against the embedded
DTE device, whose inference responses carry no `attention_value` key and
whose `get_status` dict has neither the `"metrics"` nor the
`"capabilities"` key the attack reads (so the defaults 0 and 1 give
utilization 0). -/
theorem impact_scores_in_range
    (b : Bool) (timings : List ℚ) (failures : Nat) (hf : failures ≤ 100)
    (name : String) (resp : Option DeviceResponse) (memUsed memTotal : ℚ)
    (d : DTEDevice) (maxTokens : Nat) :
    (0 ≤ (attackPromptInjection b).impactScore ∧
      (attackPromptInjection b).impactScore ≤ 1) ∧
    (0 ≤ (attackTimingAnalysis timings).impactScore ∧
      (attackTimingAnalysis timings).impactScore ≤ 1) ∧
    (0 ≤ (attackDos failures).impactScore ∧
      (attackDos failures).impactScore ≤ 1) ∧
    (failedResult name).impactScore = 0 ∧
    (0 ≤ attentionValueOf resp → attentionValueOf resp ≤ 100 →
      0 ≤ (attackAttentionDepletion resp).impactScore ∧
        (attackAttentionDepletion resp).impactScore ≤ 1) ∧
    (0 ≤ memUsed → memUsed ≤ memTotal →
      0 ≤ (attackMemoryExhaustion memUsed memTotal).impactScore ∧
        (attackMemoryExhaustion memUsed memTotal).impactScore ≤ 1) ∧
    attentionValueOf (some (handleInference d maxTokens).2.1) = 100 ∧
    "metrics" ∉ dteStatusKeys ∧ "capabilities" ∉ dteStatusKeys ∧
    (attackMemoryExhaustion 0 1).impactScore = 0 := by
  refine ⟨?_, ?_, ?_, rfl, ?_, ?_, ?_, by decide, by decide, ?_⟩
  · unfold attackPromptInjection
    cases b <;> norm_num
  · unfold attackTimingAnalysis
    have h0 := varianceRatio_nonneg timings
    constructor
    · exact le_min (by linarith) (by norm_num)
    · exact min_le_right _ _
  · unfold attackDos
    have hc : (failures : ℚ) ≤ 100 := by exact_mod_cast hf
    constructor
    · positivity
    · rw [div_le_one (by norm_num)]
      exact hc
  · intro h0 h100
    unfold attackAttentionDepletion
    constructor
    · simp only []
      have : attentionValueOf resp / 100 ≤ 1 := by
        rw [div_le_one (by norm_num)]
        exact h100
      linarith
    · simp only []
      have : 0 ≤ attentionValueOf resp / 100 := by positivity
      linarith
  · intro h0 hle
    unfold attackMemoryExhaustion memoryUtilization
    by_cases hpos : memTotal > 0
    · rw [if_pos hpos]
      have h1 : memUsed / memTotal ≤ 1 := by
        rw [div_le_one hpos]
        exact hle
      have h2 : 0 ≤ memUsed / memTotal := div_nonneg h0 (le_of_lt hpos)
      constructor
      · positivity
      · rw [div_le_one (by norm_num)]
        nlinarith
    · rw [if_neg hpos]
      norm_num
  · unfold attentionValueOf handleInference
    by_cases hm : d.modelLoaded = false
    · simp [hm]
    · simp [hm, List.lookup]
  · unfold attackMemoryExhaustion memoryUtilization
    norm_num

/-- C7 witness: the amended theorem at concrete inputs (a DoS run with
40 failures, a response with attention value 50, memory 10 of 100). -/
theorem impact_scores_in_range_witness :
    (0 ≤ (attackDos 40).impactScore ∧ (attackDos 40).impactScore ≤ 1) ∧
    (0 ≤ (attackAttentionDepletion (some
        { status := some "success", error := none, response := none,
          metrics := some [("attention_value", 50)] })).impactScore ∧
      (attackAttentionDepletion (some
        { status := some "success", error := none, response := none,
          metrics := some [("attention_value", 50)] })).impactScore ≤ 1) ∧
    (0 ≤ (attackMemoryExhaustion 10 100).impactScore ∧
      (attackMemoryExhaustion 10 100).impactScore ≤ 1) := by
  have hv : attentionValueOf (some
      { status := some "success", error := none, response := none,
        metrics := some [("attention_value", 50)] }) = 50 := by
    unfold attentionValueOf
    simp [List.lookup]
  obtain ⟨-, -, hdos, -, hatt, hmem, -, -, -, -⟩ :=
    impact_scores_in_range true [] 40 (by norm_num) "n"
      (some { status := some "success", error := none, response := none,
              metrics := some [("attention_value", 50)] })
      10 100 (dteMk 8 16 none) 100
  exact ⟨hdos, hatt (by rw [hv]; norm_num) (by rw [hv]; norm_num),
    hmem (by norm_num) (by norm_num)⟩

/-- Helper: running a batch of scenarios accumulates exactly the
results of the procedures that completed without raising. -/
theorem executeAll_eq (runs : List (String × Option AttackResult)) :
    ∀ results : List AttackResult,
      executeAll results runs = results ++ runs.filterMap Prod.snd := by
  induction runs with
  | nil => intro results; simp [executeAll]
  | cons r rest ih =>
    intro results
    obtain ⟨n, o⟩ := r
    cases o with
    | some a =>
      show executeAll (executeScenario results n (some a)).1 rest = _
      rw [show (executeScenario results n (some a)).1 = results ++ [a] from rfl]
      rw [ih (results ++ [a])]
      simp [List.filterMap_cons]
    | none =>
      show executeAll (executeScenario results n none).1 rest = _
      rw [show (executeScenario results n none).1 = results from rfl]
      rw [ih results]
      simp [List.filterMap_cons]

/-- C10: when a scenario's attack procedure raises, `execute_scenario`
returns a failed `AttackResult` with impact 0.0 that is NOT appended to
the agent's results list, while a normally completed procedure's result
is appended; consequently `generate_report` aggregates (total count,
success rate, average impact) exactly over the attacks whose procedures
completed without raising. -/
theorem exception_results_excluded_from_report
    (results : List AttackResult) (name : String)
    (runs : List (String × Option AttackResult)) :
    (executeScenario results name none).1 = results ∧
    (executeScenario results name none).2 = failedResult name ∧
    (failedResult name).success = false ∧
    (failedResult name).impactScore = 0 ∧
    (∀ r : AttackResult,
      (executeScenario results name (some r)).1 = results ++ [r]) ∧
    executeAll [] runs = runs.filterMap Prod.snd ∧
    (∀ summary : ReportSummary,
      generateReport (executeAll [] runs) = some summary →
      summary.totalAttacks = (runs.filterMap Prod.snd).length ∧
      summary.successfulAttacks =
        ((runs.filterMap Prod.snd).filter (·.success)).length ∧
      summary.averageImpactScore =
        ((runs.filterMap Prod.snd).map (·.impactScore)).sum /
          ((runs.filterMap Prod.snd).length : ℚ)) := by
  have hall : executeAll [] runs = runs.filterMap Prod.snd := by
    rw [executeAll_eq runs []]
    simp
  refine ⟨rfl, rfl, rfl, rfl, fun r => rfl, hall, ?_⟩
  intro summary hsum
  rw [hall] at hsum
  cases hres : runs.filterMap Prod.snd with
  | nil =>
    rw [hres] at hsum
    simp [generateReport] at hsum
  | cons a rest =>
    rw [hres] at hsum
    unfold generateReport at hsum
    simp only [Option.some.injEq] at hsum
    rw [← hsum]
    exact ⟨rfl, rfl, rfl⟩

/-- C10 witness: one completed scenario and one raising scenario — the
report counts exactly the completed one. -/
theorem exception_results_excluded_from_report_witness :
    (executeScenario [] "b" none).1 = [] ∧
    executeAll [] [("a", some { scenarioName := "a", success := true, impactScore := 1 / 2, recommendations := ([] : List String) }), ("b", none)] = [{ scenarioName := "a", success := true, impactScore := 1 / 2, recommendations := ([] : List String) }] := by
  obtain ⟨h1, -, -, -, -, hall, -⟩ :=
    exception_results_excluded_from_report [] "b"
      [("a", some { scenarioName := "a", success := true, impactScore := 1 / 2, recommendations := ([] : List String) }), ("b", none)]
  exact ⟨h1, by rw [hall]; rfl⟩

end VirtualHardware
